import Mathlib

/-
Verification of the asynchronous document-processing subsystem of the
Text-To-Dataset-Architecture backend.

The Lean definitions below are a shallow embedding of the Python source:
  - app/models/document.py           (ProcessingJob / Document state machine)
  - app/workers/tasks/document_tasks.py  (the process_document worker task)
  - app/api/websocket/manager.py     (ConnectionManager / WebSocketManager fan-out)
  - app/services/processing/text_processor.py  (TextProcessor.process_text)

Python floats only ever undergo assignment, min and max in the verified
operations, so they are modelled exactly as rationals.  Timestamps
(datetime.utcnow()) are modelled as explicit parameters threaded by the
caller.  SQLAlchemy persistence is out of scope (per the spec, section 1):
the ORM rows are modelled as immutable records and the mutating methods as
functions returning the updated record.
-/

set_option autoImplicit false

namespace TextToDataset

/-! ## Job state machine: app/models/document.py -/

/-- JobStatus enumeration (models/document.py lines 44-51).
Note: the worker task document_tasks.py line 54 references
JobStatus.IN_PROGRESS, a member that does not exist in this enum, so that
statement raises AttributeError on every execution (see workerClaim). -/
inductive JobStatus where
  | queued
  | running
  | completed
  | failed
  | cancelled
  | retry
  deriving DecidableEq, Repr

/-- ProcessingJob row (models/document.py lines 180-315).  Columns that no
verified operation reads or writes (cost tracking, resource usage, logs,
celery ids, ...) are omitted.  The field progress is not a column: the worker
task sets a plain attribute named progress (document_tasks.py line 126)
distinct from the progress_percentage column, modelled here as an Option. -/
structure ProcessingJob where
  status : JobStatus
  current_stage : Option String
  progress_percentage : ℚ
  queued_at : ℚ
  started_at : Option ℚ
  completed_at : Option ℚ
  worker_id : Option String
  output_s3_key : Option String
  error_message : Option String
  error_code : Option String
  retry_count : ℕ
  max_retries : ℕ
  progress : Option ℚ
  deriving DecidableEq, Repr

/-- A freshly created job with the column defaults of models/document.py:
status queued, progress_percentage 0.0, retry_count 0, max_retries 3. -/
def newJob (now : ℚ) : ProcessingJob :=
  { status := .queued
    current_stage := Option.none
    progress_percentage := 0
    queued_at := now
    started_at := Option.none
    completed_at := Option.none
    worker_id := Option.none
    output_s3_key := Option.none
    error_message := Option.none
    error_code := Option.none
    retry_count := 0
    max_retries := 3
    progress := Option.none }

/-- start_processing (models/document.py lines 278-282): unconditionally sets
status running, started_at to now and worker_id; there is no status check,
no version check and no lease. -/
def ProcessingJob.start_processing (j : ProcessingJob) (now : ℚ)
    (worker_id : Option String) : ProcessingJob :=
  { j with status := .running, started_at := Option.some now, worker_id := worker_id }

/-- complete_processing (models/document.py lines 284-290): sets status
completed, completed_at to now, progress_percentage to 100.0, and the output
key when one is given.  The Python guard is the truthiness test
if output_s3_key, so an empty string is not stored. -/
def ProcessingJob.complete_processing (j : ProcessingJob) (now : ℚ)
    (output_s3_key : Option String) : ProcessingJob :=
  let j1 := { j with status := JobStatus.completed, completed_at := Option.some now,
                     progress_percentage := 100 }
  match output_s3_key with
  | Option.some k => if k = "" then j1 else { j1 with output_s3_key := Option.some k }
  | Option.none => j1

/-- fail_processing (models/document.py lines 292-297): sets status failed,
completed_at to now and records the error.  It does not touch retry_count,
max_retries or worker_id, and performs no re-enqueue. -/
def ProcessingJob.fail_processing (j : ProcessingJob) (now : ℚ)
    (error_message : String) (error_code : Option String) : ProcessingJob :=
  { j with status := JobStatus.failed, completed_at := Option.some now,
           error_message := Option.some error_message, error_code := error_code }

/-- update_progress (models/document.py lines 312-315): stores the stage and
clamps the percentage into the interval 0.0 to 100.0 via
min(max(percentage, 0.0), 100.0). -/
def ProcessingJob.update_progress (j : ProcessingJob) (stage : String)
    (percentage : ℚ) : ProcessingJob :=
  { j with current_stage := Option.some stage,
           progress_percentage := min (max percentage 0) 100 }

/-- Document row (models/document.py lines 55-176), restricted to the fields
touched by the verified progress operation. -/
structure Document where
  status : String
  current_stage : String
  progress_percentage : ℚ
  deriving DecidableEq, Repr

/-- Document.update_progress (models/document.py lines 156-159): the same
min(max(percentage, 0.0), 100.0) clamp as the job variant. -/
def Document.update_progress (d : Document) (stage : String)
    (percentage : ℚ) : Document :=
  { d with current_stage := stage,
           progress_percentage := min (max percentage 0) 100 }

/-! ## Worker task: app/workers/tasks/document_tasks.py (process_document) -/

/-- Claim step of process_document (document_tasks.py line 54): the
statement job.status = JobStatus.IN_PROGRESS first evaluates
JobStatus.IN_PROGRESS, a member absent from the JobStatus enum, so the line
raises AttributeError before any field is assigned: the job record is left
unchanged and control passes to the task's except branch (workerFail).  No
compare-and-swap, no lease check and no AlreadyClaimedError path exists
either way. -/
def workerClaim (_j : ProcessingJob) : Except String ProcessingJob :=
  Except.error "AttributeError: type object JobStatus has no attribute IN_PROGRESS"

/-- Success epilogue of process_document (document_tasks.py lines 124-127):
status completed, completed_at, and the dynamically added progress attribute
set to 1.0 (the result attribute, also dynamic, is not modelled).  In the
task as written these lines are unreachable - line 54 raises first - so this
definition only records the effect the lines would have if executed. -/
def workerComplete (now : ℚ) (j : ProcessingJob) : ProcessingJob :=
  { j with status := JobStatus.completed, completed_at := Option.some now,
           progress := Option.some 1 }

/-- Failure handler of process_document (document_tasks.py lines 153-157):
status failed, the error message and completed_at are recorded and the task
re-raises.  retry_count is not incremented, worker_id is not cleared and the
job is not re-enqueued. -/
def workerFail (now : ℚ) (msg : String) (j : ProcessingJob) : ProcessingJob :=
  { j with status := JobStatus.failed, error_message := Option.some msg,
           completed_at := Option.some now }

/-- Every job-record mutation present in the source, as one step alphabet:
the four model methods of ProcessingJob plus the worker task's direct
assignments.  The worker claim step raises, leaving the record unchanged, so
its effect on the job record is the identity. -/
inductive JobOp where
  | start (now : ℚ) (worker_id : Option String)
  | complete (now : ℚ) (output_s3_key : Option String)
  | fail (now : ℚ) (msg : String) (code : Option String)
  | progressUpd (stage : String) (percentage : ℚ)
  | wClaim (now : ℚ)
  | wComplete (now : ℚ)
  | wFail (now : ℚ) (msg : String)

def applyOp (j : ProcessingJob) : JobOp → ProcessingJob
  | .start now w => j.start_processing now w
  | .complete now k => j.complete_processing now k
  | .fail now m c => j.fail_processing now m c
  | .progressUpd s p => j.update_progress s p
  | .wClaim _ =>
      match workerClaim j with
      | .ok j2 => j2
      | .error _ => j
  | .wComplete now => workerComplete now j
  | .wFail now m => workerFail now m j

def applyOps (j : ProcessingJob) (ops : List JobOp) : ProcessingJob :=
  ops.foldl applyOp j

/-! ## Real-time fan-out: app/api/websocket/manager.py

Connections (starlette WebSocket handles) are identified by natural numbers.
A send over the wire either succeeds, raises, or finds the transport in a
non-CONNECTED application_state; that outcome is the environment of a
delivery operation.  Python dicts are modelled as association lists with
insert-or-overwrite-in-place update, which preserves the source's key
uniqueness and iteration order.  json.dumps serialization is external; the
messages are observed as structured values. -/

/-- Python values appearing in pushed messages. -/
inductive PyVal where
  | str (s : String)
  | num (q : ℚ)
  | bool (b : Bool)
  | none
  | list (xs : List PyVal)
  | dict (entries : List (String × PyVal))
  deriving Repr

abbrev WS := ℕ

inductive SendOutcome where
  | ok
  | sendError
  | notConnected
  deriving DecidableEq, Repr

abbrev SendEnv := WS → SendOutcome

/-- Dict read: first (unique) binding of the key, if any. -/
def mapGet {κ α : Type} [DecidableEq κ] : List (κ × α) → κ → Option α
  | [], _ => Option.none
  | (k1, v1) :: rest, k => if k1 = k then Option.some v1 else mapGet rest k

/-- Dict write: overwrite in place when the key exists, else append. -/
def mapSet {κ α : Type} [DecidableEq κ] : List (κ × α) → κ → α → List (κ × α)
  | [], k, v => [(k, v)]
  | (k1, v1) :: rest, k, v =>
      if k1 = k then (k, v) :: rest else (k1, v1) :: mapSet rest k v

/-- Dict del: drop the binding of the key. -/
def mapDel {κ α : Type} [DecidableEq κ] : List (κ × α) → κ → List (κ × α)
  | [], _ => []
  | (k1, v1) :: rest, k =>
      if k1 = k then rest else (k1, v1) :: mapDel rest k

/-- Python truthiness of the modelled values (used by the guards
if metadata and if output_s3_key in the source). -/
def PyVal.truthy : PyVal → Bool
  | .str s => !(s = "")
  | .num q => !(q = 0)
  | .bool b => b
  | .none => false
  | .list xs => !xs.isEmpty
  | .dict es => !es.isEmpty

/-- ConnectionManager (manager.py lines 18-23): a plain Python list of live
connections plus a metadata dict. -/
structure ConnectionManager where
  active_connections : List WS
  metadata : List (WS × PyVal)
  deriving Repr

def ConnectionManager.empty : ConnectionManager := ⟨[], []⟩

/-- ConnectionManager.connect (manager.py lines 25-31): accept the handshake
(transport-level, not modelled), append the connection to the list - with no
membership check - and record the metadata when it is truthy. -/
def ConnectionManager.connect (m : ConnectionManager) (ws : WS)
    (meta : Option PyVal) : ConnectionManager :=
  { active_connections := m.active_connections ++ [ws]
    metadata :=
      match meta with
      | Option.some md => if md.truthy then mapSet m.metadata ws md else m.metadata
      | Option.none => m.metadata }

/-- Remove the first occurrence of a connection, as Python list.remove does. -/
def removeFirst (ws : WS) : List WS → List WS
  | [] => []
  | c :: rest => if c = ws then rest else c :: removeFirst ws rest

/-- ConnectionManager.disconnect (manager.py lines 33-39): remove the first
occurrence from the list when present and drop the metadata entry. -/
def ConnectionManager.disconnect (m : ConnectionManager) (ws : WS) :
    ConnectionManager :=
  { active_connections :=
      if ws ∈ m.active_connections then removeFirst ws m.active_connections
      else m.active_connections
    metadata := mapDel m.metadata ws }

/-- Delivery loop of ConnectionManager.broadcast (manager.py lines 52-61):
walk the connection list in order; a connection in CONNECTED state whose send
succeeds receives the message, every other connection is collected in the
disconnected list and the loop continues.  Returns (delivered, disconnected)
in traversal order. -/
def broadcastLoop (env : SendEnv) : List WS → List WS × List WS
  | [] => ([], [])
  | c :: rest =>
      let p := broadcastLoop env rest
      match env c with
      | .ok => (c :: p.1, p.2)
      | _ => (p.1, c :: p.2)

/-- ConnectionManager.broadcast (manager.py lines 50-65): deliver to every
connection as per the loop, then disconnect each collected failure.  Returns
the connections that received the message and the updated manager. -/
def ConnectionManager.broadcast (env : SendEnv) (m : ConnectionManager) :
    List WS × ConnectionManager :=
  let p := broadcastLoop env m.active_connections
  (p.1, p.2.foldl (fun acc c => acc.disconnect c) m)

/-- WebSocketManager (manager.py lines 68-88): the four target registries,
the connection-to-user map and the heartbeat task keys.  Heartbeat task
objects are asyncio handles; only their keys are modelled. -/
structure WebSocketManager where
  user_connections : List (String × ConnectionManager)
  room_connections : List (String × ConnectionManager)
  job_connections : List (String × ConnectionManager)
  chat_connections : List (String × ConnectionManager)
  connection_users : List (WS × String)
  heartbeat_tasks : List WS
  deriving Repr

def WebSocketManager.empty : WebSocketManager := ⟨[], [], [], [], [], []⟩

/-- WebSocketManager.send_to_user (manager.py lines 154-158): when the user
has a channel, broadcast the serialized data over it.  Returns the updated
manager and the (connection, message) deliveries. -/
def WebSocketManager.send_to_user (env : SendEnv) (M : WebSocketManager)
    (user_id : String) (data : PyVal) : WebSocketManager × List (WS × PyVal) :=
  match mapGet M.user_connections user_id with
  | Option.none => (M, [])
  | Option.some cm =>
      let p := ConnectionManager.broadcast env cm
      ({ M with user_connections := mapSet M.user_connections user_id p.2 },
        p.1.map (fun c => (c, data)))

/-- WebSocketManager.connect_user (manager.py lines 90-115): create the user
channel when absent, append the connection to it, record the
connection-to-user mapping, start a heartbeat task, and push a connection
confirmation over the user channel. -/
def WebSocketManager.connect_user (env : SendEnv) (now : String)
    (M : WebSocketManager) (ws : WS) (user_id : String) (meta : Option PyVal) :
    WebSocketManager :=
  let ucs :=
    if (mapGet M.user_connections user_id).isNone then
      mapSet M.user_connections user_id ConnectionManager.empty
    else M.user_connections
  let cm := (mapGet ucs user_id).getD ConnectionManager.empty
  let M1 : WebSocketManager :=
    { M with
      user_connections := mapSet ucs user_id (cm.connect ws meta)
      connection_users := mapSet M.connection_users ws user_id
      heartbeat_tasks :=
        if ws ∈ M.heartbeat_tasks then M.heartbeat_tasks
        else M.heartbeat_tasks ++ [ws] }
  (M1.send_to_user env user_id (PyVal.dict
    [("type", .str "connection"), ("status", .str "connected"),
     ("timestamp", .str now)])).1

/-- WebSocketManager.disconnect_user (manager.py lines 117-138): when the
connection is known, cancel and drop its heartbeat task, remove it from its
user's channel - deleting the channel when it empties - and drop the
connection-to-user entry.  Job, room and chat registries are not touched. -/
def WebSocketManager.disconnect_user (M : WebSocketManager) (ws : WS) :
    WebSocketManager :=
  match mapGet M.connection_users ws with
  | Option.none => M
  | Option.some user_id =>
      let hb := if ws ∈ M.heartbeat_tasks then
          M.heartbeat_tasks.filter (fun c => !(c = ws))
        else M.heartbeat_tasks
      let ucs :=
        match mapGet M.user_connections user_id with
        | Option.none => M.user_connections
        | Option.some cm =>
            let cm1 := cm.disconnect ws
            if cm1.active_connections.isEmpty then
              mapDel M.user_connections user_id
            else mapSet M.user_connections user_id cm1
      { M with user_connections := ucs, heartbeat_tasks := hb,
               connection_users := mapDel M.connection_users ws }

/-- WebSocketManager.subscribe_to_job (manager.py lines 174-180): create the
job channel when absent and append the connection to it (connect is called
without metadata). -/
def WebSocketManager.subscribe_to_job (M : WebSocketManager) (ws : WS)
    (job_id : String) : WebSocketManager :=
  let jcs :=
    if (mapGet M.job_connections job_id).isNone then
      mapSet M.job_connections job_id ConnectionManager.empty
    else M.job_connections
  let cm := (mapGet jcs job_id).getD ConnectionManager.empty
  { M with job_connections := mapSet jcs job_id (cm.connect ws Option.none) }

/-- WebSocketManager.join_room (manager.py lines 226-232). -/
def WebSocketManager.join_room (M : WebSocketManager) (ws : WS)
    (room_id : String) : WebSocketManager :=
  let rcs :=
    if (mapGet M.room_connections room_id).isNone then
      mapSet M.room_connections room_id ConnectionManager.empty
    else M.room_connections
  let cm := (mapGet rcs room_id).getD ConnectionManager.empty
  { M with room_connections := mapSet rcs room_id (cm.connect ws Option.none) }

/-- WebSocketManager.subscribe_to_chat (manager.py lines 194-200). -/
def WebSocketManager.subscribe_to_chat (M : WebSocketManager) (ws : WS)
    (session_id : String) : WebSocketManager :=
  let ccs :=
    if (mapGet M.chat_connections session_id).isNone then
      mapSet M.chat_connections session_id ConnectionManager.empty
    else M.chat_connections
  let cm := (mapGet ccs session_id).getD ConnectionManager.empty
  { M with chat_connections := mapSet ccs session_id (cm.connect ws Option.none) }

/-- Message pushed to job subscribers by send_job_update
(manager.py lines 185-190). -/
def jobUpdateMsg (now : String) (job_id : String) (data : PyVal) : PyVal :=
  PyVal.dict [("type", .str "job_update"), ("job_id", .str job_id),
    ("data", data), ("timestamp", .str now)]

/-- WebSocketManager.send_job_update (manager.py lines 182-191): when the job
has subscribers, wrap the data in the job_update envelope and broadcast it
over the job channel. -/
def WebSocketManager.send_job_update (env : SendEnv) (now : String)
    (M : WebSocketManager) (job_id : String) (data : PyVal) :
    WebSocketManager × List (WS × PyVal) :=
  match mapGet M.job_connections job_id with
  | Option.none => (M, [])
  | Option.some cm =>
      let msg := jobUpdateMsg now job_id data
      let p := ConnectionManager.broadcast env cm
      ({ M with job_connections := mapSet M.job_connections job_id p.2 },
        p.1.map (fun c => (c, msg)))

def optStr : Option String → PyVal
  | Option.some s => .str s
  | Option.none => .none

/-- Message pushed to the user channel by send_processing_update
(manager.py lines 270-277): note it has no stage key. -/
def processingUpdateMsg (now : String) (job_id : String) (status : String)
    (progressVal : ℚ) (message : Option String) : PyVal :=
  PyVal.dict [("type", .str "processing_update"), ("job_id", .str job_id),
    ("status", .str status), ("progress", .num progressVal),
    ("message", optStr message), ("timestamp", .str now)]

/-- WebSocketManager.send_processing_update (manager.py lines 261-287): build
the processing_update message, push it to the owning user's channel, then
push a status/progress/message payload to the job's subscribers through
send_job_update.  The two utcnow() calls are modelled with one timestamp. -/
def WebSocketManager.send_processing_update (env : SendEnv) (now : String)
    (M : WebSocketManager) (user_id : String) (job_id : String)
    (status : String) (progressVal : ℚ) (message : Option String) :
    WebSocketManager × List (WS × PyVal) :=
  let upd := processingUpdateMsg now job_id status progressVal message
  let p1 := M.send_to_user env user_id upd
  let p2 := p1.1.send_job_update env now job_id (PyVal.dict
    [("status", .str status), ("progress", .num progressVal),
     ("message", optStr message)])
  (p2.1, p1.2 ++ p2.2)

/-- Lookup inside a pushed message. -/
def pyDictGet : PyVal → String → Option PyVal
  | .dict es, k => mapGet es k
  | _, _ => Option.none

/-- Environment in which every send succeeds. -/
def envAllOk : SendEnv := fun _ => SendOutcome.ok

def m5 : ConnectionManager := ⟨[0, 1, 2], []⟩

def env5 : SendEnv := fun c => if c = 1 then SendOutcome.sendError else SendOutcome.ok

def M6 : WebSocketManager :=
  (WebSocketManager.empty.connect_user envAllOk "t0" 1 "alice"
    Option.none).subscribe_to_job 1 "job1"

def M7 : WebSocketManager :=
  (WebSocketManager.empty.connect_user envAllOk "t0" 1 "u"
    Option.none).subscribe_to_job 2 "j"

def M8 : WebSocketManager :=
  (WebSocketManager.empty.subscribe_to_job 7 "j").subscribe_to_job 7 "j"

/-! ## Text pipeline: app/services/processing/text_processor.py

TextProcessor.process_text drives the analysis chain and builds a Python
dict of results, modelled as an association list.  The individual analysis
calls (regex cleaning, nltk tokenization, spaCy/nltk entity extraction,
sklearn keyword scoring, summarization, keyword classification) wrap
external NLP libraries - out of scope per the spec, section 1 - so each is a
parameter that either returns a value or raises; process_text itself (the
result-dict construction, the option gating, the guarded division and the
try/except envelope) is embedded from the source. -/

/-- Processing options read via options.get with these defaults
(text_processor.py lines 497-517). -/
structure ProcessOptions where
  calculate_readability : Bool := true
  extract_entities : Bool := true
  extract_keywords : Bool := true
  num_keywords : ℕ := 10
  classify_text : Bool := true
  categories : Option (List String) := Option.none
  generate_summary : Bool := true
  summary_max_length : ℕ := 500

/-- Behaviour of the analysis calls made inside the try block of
process_text: each may return a value or raise an exception with a message
(e.g. an nltk LookupError). -/
structure TextSteps where
  clean : String → Except String String
  sentences : String → Except String (List String)
  tokens : String → Except String (List String)
  readability : String → Except String PyVal
  entities : String → Except String PyVal
  keywords : String → ℕ → Except String PyVal
  classify : String → Option (List String) → Except String PyVal
  summary : String → ℕ → Except String PyVal

abbrev Results := List (String × PyVal)

/-- Option-gated tail of the try block (text_processor.py lines 496-517):
each enabled step stores its result under its key; the first exception
aborts the remaining steps, preserving the results accumulated so far. -/
def runSteps (r : Results) :
    List (Bool × String × Except String PyVal) → Results × Option String
  | [] => (r, Option.none)
  | (gate, key, act) :: rest =>
      if gate then
        match act with
        | .error e => (r, Option.some e)
        | .ok v => runSteps (mapSet r key v) rest
      else runSteps r rest

/-- Results dict before the try block (text_processor.py lines 474-477). -/
def initResults (now : String) (text : String) : Results :=
  [("processed_at", .str now), ("original_length", .num (text.length : ℚ))]

/-- Try block of process_text (text_processor.py lines 479-519): clean,
basic metrics (with the guarded division for avg_sentence_length), then the
five option-gated analysis steps.  Returns the accumulated results and the
raised exception message, if any. -/
def processTextBody (S : TextSteps) (text : String) (opts : ProcessOptions)
    (r : Results) : Results × Option String :=
  match S.clean text with
  | .error e => (r, Option.some e)
  | .ok cleaned =>
      let r := mapSet (mapSet r "cleaned_text" (.str cleaned)) "cleaned_length"
        (.num (cleaned.length : ℚ))
      match S.sentences cleaned with
      | .error e => (r, Option.some e)
      | .ok sentences =>
          match S.tokens cleaned with
          | .error e => (r, Option.some e)
          | .ok tokens =>
              let r := mapSet r "sentence_count" (.num (sentences.length : ℚ))
              let r := mapSet r "word_count" (.num (tokens.length : ℚ))
              let r := mapSet r "unique_words" (.num (tokens.dedup.length : ℚ))
              let r := mapSet r "avg_sentence_length"
                (.num (if sentences.isEmpty then 0
                  else (tokens.length : ℚ) / (sentences.length : ℚ)))
              runSteps r
                [(opts.calculate_readability, "readability",
                    S.readability cleaned),
                 (opts.extract_entities, "entities", S.entities cleaned),
                 (opts.extract_keywords, "keywords",
                    S.keywords cleaned opts.num_keywords),
                 (opts.classify_text, "classification",
                    S.classify cleaned opts.categories),
                 (opts.generate_summary, "summary",
                    S.summary cleaned opts.summary_max_length)]

/-- TextProcessor.process_text (text_processor.py lines 460-528): run the
try block; on normal completion store success True, on a caught exception
store success False and the error message.  The except-Exception envelope
means the function always returns the dict and never re-raises. -/
def processText (S : TextSteps) (now : String) (text : String)
    (opts : ProcessOptions) : Results :=
  match processTextBody S text opts (initResults now text) with
  | (r, Option.none) => mapSet r "success" (.bool true)
  | (r, Option.some e) =>
      mapSet (mapSet r "success" (.bool false)) "error" (.str e)

/-- Concrete behaviour of the analysis calls on an empty document: cleaning
the empty string yields the empty string, tokenization yields no sentences
and no tokens, and the analyzers return their empty results (the entity,
keyword, readability and summary helpers catch their own exceptions and
return empty values; classify_text scores every default category 0 and picks
the first, business, with confidence 0). -/
def S9 : TextSteps :=
  { clean := fun _ => .ok ""
    sentences := fun _ => .ok []
    tokens := fun _ => .ok []
    readability := fun _ => .ok (.dict
      [("sentence_count", .num 0), ("word_count", .num 0),
       ("avg_words_per_sentence", .num 0), ("avg_sentence_length", .num 0)])
    entities := fun _ => .ok (.list [])
    keywords := fun _ _ => .ok (.list [])
    classify := fun _ _ => .ok (.dict
      [("primary_category", .str "business"), ("confidence", .num 0),
       ("classification_type", .str "keyword_based")])
    summary := fun _ _ => .ok (.str "") }

/-! ## Theorems -/

theorem retry_count_applyOp (j : ProcessingJob) (op : JobOp) :
    (applyOp j op).retry_count = j.retry_count ∧
    (applyOp j op).max_retries = j.max_retries := by
  cases op <;>
    simp [applyOp, ProcessingJob.start_processing, ProcessingJob.complete_processing,
      ProcessingJob.fail_processing, ProcessingJob.update_progress,
      workerClaim, workerComplete, workerFail]
  case complete now k =>
    cases k with
    | none => simp
    | some s => by_cases h : s = "" <;> simp [h]

theorem retry_count_applyOps (j : ProcessingJob) (ops : List JobOp) :
    (applyOps j ops).retry_count = j.retry_count ∧
    (applyOps j ops).max_retries = j.max_retries := by
  induction ops generalizing j with
  | nil => exact ⟨rfl, rfl⟩
  | cons op rest ih =>
      have h := retry_count_applyOp j op
      have h2 := ih (applyOp j op)
      simp only [applyOps, List.foldl] at h2 ⊢
      exact ⟨h2.1.trans h.1, h2.2.trans h.2⟩

/-- C1 (counterexample).  The claim states that a second claim on a job that
is already Running fails with AlreadyClaimedError rather than also
transitioning the job.  In the code the claim operation start_processing is
unconditional: here a second claim by workerB on a job already Running for
workerA succeeds, leaving the job Running with workerB recorded. -/
theorem c1_claim_counterexample :
    ((newJob 0).start_processing 1 (Option.some "workerA")).status = JobStatus.running ∧
    (((newJob 0).start_processing 1 (Option.some "workerA")).start_processing 2
        (Option.some "workerB")).status = JobStatus.running ∧
    (((newJob 0).start_processing 1 (Option.some "workerA")).start_processing 2
        (Option.some "workerB")).worker_id = Option.some "workerB" ∧
    (((newJob 0).start_processing 1 (Option.some "workerA")).start_processing 2
        (Option.some "workerB")).started_at = Option.some 2 :=
  ⟨rfl, rfl, rfl, rfl⟩

/-- C1 (amended).  The claim operation always succeeds: for every job -
including one already Running with any worker recorded - start_processing
transitions it to Running and overwrites worker_id and started_at with the
new claimant (last writer wins).  No AlreadyClaimedError exists in the code
and at-most-one-worker is not enforced. -/
theorem c1_claim_unconditional (j : ProcessingJob) (now : ℚ) (w : Option String) :
    (j.start_processing now w).status = JobStatus.running ∧
    (j.start_processing now w).worker_id = w ∧
    (j.start_processing now w).started_at = Option.some now :=
  ⟨rfl, rfl, rfl⟩

/-- C2 (counterexample).  The claim states that when processing fails with
retryCount < maxRetries the failure handler re-enqueues the job (increments
retryCount, resets status to Queued, clears workerId).  Here a running job
with retry_count 0 < max_retries 3 fails: the job ends Failed, not Queued,
retry_count stays 0 and worker_id is not cleared. -/
theorem c2_fail_counterexample :
    (((newJob 0).start_processing 1 (Option.some "w")).retry_count <
      ((newJob 0).start_processing 1 (Option.some "w")).max_retries) ∧
    ((((newJob 0).start_processing 1 (Option.some "w")).fail_processing 2 "boom"
        Option.none).status ≠ JobStatus.queued) ∧
    ((((newJob 0).start_processing 1 (Option.some "w")).fail_processing 2 "boom"
        Option.none).retry_count = 0) ∧
    ((((newJob 0).start_processing 1 (Option.some "w")).fail_processing 2 "boom"
        Option.none).worker_id = Option.some "w") := by
  refine ⟨by decide, by decide, rfl, rfl⟩

/-- C2 (amended).  The failure handler (fail_processing, likewise the except
branch of process_document) always sets status Failed and records the error,
regardless of retryCount; it never increments retryCount, never clears
workerId and never re-enqueues.  Because no operation of the source mutates
retry_count or max_retries, retryCount ≤ maxRetries does hold in every state
reachable from a freshly created job (0 ≤ 3). -/
theorem c2_fail_terminal_and_retry_bound (j : ProcessingJob) (now : ℚ)
    (msg : String) (code : Option String) (ops : List JobOp) (t : ℚ) :
    (j.fail_processing now msg code).status = JobStatus.failed ∧
    (j.fail_processing now msg code).retry_count = j.retry_count ∧
    (j.fail_processing now msg code).worker_id = j.worker_id ∧
    (j.fail_processing now msg code).error_message = Option.some msg ∧
    (applyOps (newJob t) ops).retry_count ≤ (applyOps (newJob t) ops).max_retries := by
  refine ⟨rfl, rfl, rfl, rfl, ?_⟩
  have h := retry_count_applyOps (newJob t) ops
  rw [h.1, h.2]
  norm_num [newJob]

/-- C3 (counterexample).  The claim states the stored progress after an
update is always within 0.0 to 1.0.  The source stores percentages: updating
with 50 stores 50, which is outside that interval, for both the job and the
document variant of update_progress. -/
theorem c3_progress_counterexample :
    ((newJob 0).update_progress "extraction" 50).progress_percentage = 50 ∧
    ¬ ((newJob 0).update_progress "extraction" 50).progress_percentage ≤ 1 ∧
    ((⟨"processing", "validation", 0⟩ : Document).update_progress
        "extraction" 50).progress_percentage = 50 := by
  refine ⟨?_, ?_, ?_⟩ <;>
    norm_num [ProcessingJob.update_progress, Document.update_progress, newJob]

/-- C3 (amended).  Progress is stored on a percentage scale: for every input
value (negative or above the bound included) the stored progress_percentage
is min(max(input, 0), 100), hence always within 0.0 to 100.0 and never
stored out of that range - the clamp interval is 0 to 100, not 0 to 1. -/
theorem c3_progress_clamped_percent (j : ProcessingJob) (d : Document)
    (stage : String) (p : ℚ) :
    0 ≤ (j.update_progress stage p).progress_percentage ∧
    (j.update_progress stage p).progress_percentage ≤ 100 ∧
    (j.update_progress stage p).progress_percentage = min (max p 0) 100 ∧
    (d.update_progress stage p).progress_percentage = min (max p 0) 100 := by
  refine ⟨?_, ?_, rfl, rfl⟩
  · exact le_min (le_max_right p 0) (by norm_num)
  · exact min_le_right _ _

/-- C4 (counterexample).  The claim states that complete on an
already-Completed job is a no-op whose resulting state (status, completedAt,
progress) equals the state before the call.  In the code complete_processing
overwrites completed_at with the current time: a second call at time 3 moves
completed_at from 2 to 3, so the state changes. -/
theorem c4_complete_counterexample :
    ((((newJob 0).start_processing 1 (Option.some "w")).complete_processing 2
        Option.none).complete_processing 3 Option.none).completed_at = Option.some 3 ∧
    (((newJob 0).start_processing 1 (Option.some "w")).complete_processing 2
        Option.none).completed_at = Option.some 2 ∧
    (Option.some (3 : ℚ) ≠ Option.some (2 : ℚ)) := by
  refine ⟨rfl, rfl, by simp⟩

/-- C4 (amended).  A second complete on an already-completed job leaves
status, progress_percentage and the stored output key unchanged, but
overwrites completedAt with the time of the second call; it is a true no-op
only when repeated with the same timestamp and argument. -/
theorem c4_complete_idempotent_mod_time (j : ProcessingJob) (t₁ t₂ : ℚ)
    (k : Option String) :
    ((j.complete_processing t₁ k).complete_processing t₂ k).status =
      (j.complete_processing t₁ k).status ∧
    ((j.complete_processing t₁ k).complete_processing t₂ k).progress_percentage =
      (j.complete_processing t₁ k).progress_percentage ∧
    ((j.complete_processing t₁ k).complete_processing t₂ k).output_s3_key =
      (j.complete_processing t₁ k).output_s3_key ∧
    ((j.complete_processing t₁ k).complete_processing t₂ k).completed_at =
      Option.some t₂ ∧
    (j.complete_processing t₁ k).complete_processing t₁ k =
      j.complete_processing t₁ k := by
  cases k with
  | none => exact ⟨rfl, rfl, rfl, rfl, rfl⟩
  | some s =>
      by_cases h : s = ""
      · subst h
        simp [ProcessingJob.complete_processing]
      · simp [ProcessingJob.complete_processing, h]

/-! ## Fan-out lemmas -/

theorem mem_broadcastLoop_fst (env : SendEnv) (c : WS) :
    ∀ l : List WS, c ∈ l → env c = SendOutcome.ok → c ∈ (broadcastLoop env l).1 := by
  intro l
  induction l with
  | nil => intro h _; simp at h
  | cons a rest ih =>
      intro hmem hok
      rcases List.mem_cons.mp hmem with h | h
      · subst h
        simp [broadcastLoop, hok]
      · cases henv : env a <;> simp [broadcastLoop, henv] <;>
          first
            | exact Or.inr (ih h hok)
            | exact ih h hok

theorem mem_broadcastLoop_snd (env : SendEnv) (c : WS) :
    ∀ l : List WS, c ∈ (broadcastLoop env l).2 → env c ≠ SendOutcome.ok := by
  intro l
  induction l with
  | nil => intro h; simp [broadcastLoop] at h
  | cons a rest ih =>
      intro hmem
      cases henv : env a with
      | ok =>
          simp [broadcastLoop, henv] at hmem
          exact ih hmem
      | sendError =>
          simp [broadcastLoop, henv] at hmem
          rcases hmem with h | h
          · subst h; simp [henv]
          · exact ih h
      | notConnected =>
          simp [broadcastLoop, henv] at hmem
          rcases hmem with h | h
          · subst h; simp [henv]
          · exact ih h

theorem mem_removeFirst (ws c : WS) (hne : c ≠ ws) :
    ∀ l : List WS, c ∈ l → c ∈ removeFirst ws l := by
  intro l
  induction l with
  | nil => intro h; simp at h
  | cons a rest ih =>
      intro hmem
      rcases List.mem_cons.mp hmem with h | h
      · subst h
        have ha : ¬ (c = ws) := hne
        simp [removeFirst, ha]
      · by_cases ha : a = ws
        · simp [removeFirst, ha]; exact h
        · simp [removeFirst, ha]
          exact Or.inr (ih h)

theorem mem_disconnect (m : ConnectionManager) (ws c : WS) (hne : c ≠ ws)
    (hmem : c ∈ m.active_connections) :
    c ∈ (m.disconnect ws).active_connections := by
  unfold ConnectionManager.disconnect
  by_cases h : ws ∈ m.active_connections
  · simpa [h] using mem_removeFirst ws c hne _ hmem
  · simpa [h] using hmem

theorem mem_foldl_disconnect (c : WS) :
    ∀ (dis : List WS) (m : ConnectionManager), c ∉ dis →
      c ∈ m.active_connections →
      c ∈ (dis.foldl (fun acc d => acc.disconnect d) m).active_connections := by
  intro dis
  induction dis with
  | nil => intro m _ hm; exact hm
  | cons d rest ih =>
      intro m hnot hm
      simp only [List.foldl]
      apply ih
      · intro hc; exact hnot (List.mem_cons_of_mem _ hc)
      · exact mem_disconnect m d c (fun h => hnot (by simp [h])) hm

/-- C5 (confirmed).  Broadcast isolation: for every environment of send
outcomes, every currently-registered connection whose send does not fail both
receives the event and stays registered afterwards; a failure on another
connection never blocks or drops its delivery. -/
theorem c5_broadcast_isolation (env : SendEnv) (m : ConnectionManager) (c : WS)
    (hmem : c ∈ m.active_connections) (hok : env c = SendOutcome.ok) :
    c ∈ (ConnectionManager.broadcast env m).1 ∧
    c ∈ ((ConnectionManager.broadcast env m).2).active_connections := by
  constructor
  · exact mem_broadcastLoop_fst env c m.active_connections hmem hok
  · exact mem_foldl_disconnect c (broadcastLoop env m.active_connections).2 m
      (fun hc => (mem_broadcastLoop_snd env c m.active_connections hc) hok) hmem

/-- C5 (witness).  Three registered connections, the middle one failing:
connection 0 still receives the event and stays registered. -/
theorem c5_broadcast_isolation_witness :
    (0 : WS) ∈ (ConnectionManager.broadcast env5 m5).1 ∧
    (0 : WS) ∈ ((ConnectionManager.broadcast env5 m5).2).active_connections :=
  c5_broadcast_isolation env5 m5 0 (by decide) (by decide)

/-! ## Association-list dictionary lemmas -/

theorem mapGet_mapSet_self {κ α : Type} [DecidableEq κ] (m : List (κ × α))
    (k : κ) (v : α) : mapGet (mapSet m k v) k = Option.some v := by
  induction m with
  | nil => simp [mapGet, mapSet]
  | cons p rest ih =>
      obtain ⟨k1, v1⟩ := p
      by_cases h : k1 = k
      · simp [mapSet, mapGet, h]
      · simp [mapSet, mapGet, h, ih]

theorem mapGet_mapSet_ne {κ α : Type} [DecidableEq κ] (m : List (κ × α))
    (k k1 : κ) (v : α) (hne : k1 ≠ k) :
    mapGet (mapSet m k v) k1 = mapGet m k1 := by
  induction m with
  | nil => simp [mapGet, mapSet, Ne.symm hne]
  | cons p rest ih =>
      obtain ⟨k2, v2⟩ := p
      by_cases h : k2 = k
      · subst h
        simp [mapSet, mapGet, Ne.symm hne]
      · simp [mapSet, mapGet, h, ih]

theorem mapGet_eq_none_of_not_mem {κ α : Type} [DecidableEq κ]
    (m : List (κ × α)) (k : κ) (h : k ∉ m.map Prod.fst) :
    mapGet m k = Option.none := by
  induction m with
  | nil => rfl
  | cons p rest ih =>
      obtain ⟨k1, v1⟩ := p
      rw [List.map_cons] at h
      have h1 : ¬ (k1 = k) := fun hh => h (by rw [hh]; exact List.mem_cons_self _ _)
      have h2 : k ∉ rest.map Prod.fst := fun hh => h (List.mem_cons_of_mem _ hh)
      simp [mapGet, h1, ih h2]

theorem mapGet_mapDel_self_of_nodup {κ α : Type} [DecidableEq κ]
    (m : List (κ × α)) (k : κ) (h : (m.map Prod.fst).Nodup) :
    mapGet (mapDel m k) k = Option.none := by
  induction m with
  | nil => rfl
  | cons p rest ih =>
      obtain ⟨k1, v1⟩ := p
      rw [List.map_cons, List.nodup_cons] at h
      by_cases hk : k1 = k
      · subst hk
        simp only [mapDel, if_pos rfl]
        exact mapGet_eq_none_of_not_mem rest k1 h.1
      · simp [mapDel, hk, mapGet, ih h.2]

theorem count_removeFirst (ws : WS) :
    ∀ l : List WS, ws ∈ l → (removeFirst ws l).count ws + 1 = l.count ws := by
  intro l
  induction l with
  | nil => intro h; simp at h
  | cons a rest ih =>
      intro hmem
      by_cases h : a = ws
      · subst h
        simp [removeFirst, List.count_cons_self]
      · have hmem2 : ws ∈ rest := by
          rcases List.mem_cons.mp hmem with hh | hh
          · exact absurd hh.symm h
          · exact hh
        have hne : ¬ (a = ws) := h
        simp [removeFirst, hne, List.count_cons, ih hmem2]

theorem not_mem_disconnect_self_of_count_le_one (cm : ConnectionManager)
    (ws : WS) (h : cm.active_connections.count ws ≤ 1) :
    ws ∉ (cm.disconnect ws).active_connections := by
  show ws ∉ (if ws ∈ cm.active_connections then removeFirst ws cm.active_connections
    else cm.active_connections)
  by_cases hmem : ws ∈ cm.active_connections
  · rw [if_pos hmem]
    intro hmem2
    have hc := count_removeFirst ws cm.active_connections hmem
    have h1 : 0 < (removeFirst ws cm.active_connections).count ws :=
      List.count_pos_iff.mpr hmem2
    omega
  · rw [if_neg hmem]
    exact hmem

/-- C6 (counterexample).  The claim states that the unregister operation run
on disconnect removes the connection from every subscriber set it belongs to.
Here connection 1 connects as user alice, subscribes to job1, and is then
disconnected: the job1 subscriber set still contains connection 1 even though
the connection-to-user mapping is gone. -/
theorem c6_disconnect_counterexample :
    (1 : WS) ∈ ((mapGet (((WebSocketManager.empty.connect_user envAllOk "t0" 1
        "alice" Option.none).subscribe_to_job 1 "job1").disconnect_user
        1).job_connections "job1").getD
        ConnectionManager.empty).active_connections ∧
    mapGet (((WebSocketManager.empty.connect_user envAllOk "t0" 1
        "alice" Option.none).subscribe_to_job 1 "job1").disconnect_user
        1).connection_users 1 = Option.none := by
  refine ⟨by decide, by decide⟩

/-- C6 (amended).  disconnect_user cleans up only the user-facing state: it
removes the connection from its user's personal channel (dropping the channel
if emptied) and deletes the connection-to-user and heartbeat entries, but the
job, room and chat subscriber registries are left completely unchanged, so a
disconnected connection stays in every job, room and chat subscriber set it
had joined. -/
theorem c6_disconnect_scope (M : WebSocketManager) (ws : WS) (uid : String)
    (huid : mapGet M.connection_users ws = Option.some uid)
    (hnodup : (M.connection_users.map Prod.fst).Nodup)
    (hnodupU : (M.user_connections.map Prod.fst).Nodup)
    (hcount : ((mapGet M.user_connections uid).getD
        ConnectionManager.empty).active_connections.count ws ≤ 1) :
    (M.disconnect_user ws).job_connections = M.job_connections ∧
    (M.disconnect_user ws).room_connections = M.room_connections ∧
    (M.disconnect_user ws).chat_connections = M.chat_connections ∧
    mapGet (M.disconnect_user ws).connection_users ws = Option.none ∧
    ws ∉ ((mapGet (M.disconnect_user ws).user_connections uid).getD
        ConnectionManager.empty).active_connections := by
  unfold WebSocketManager.disconnect_user
  rw [huid]
  refine ⟨rfl, rfl, rfl, mapGet_mapDel_self_of_nodup _ _ hnodup, ?_⟩
  rcases hcm : mapGet M.user_connections uid with _ | cm
  · simp [hcm, ConnectionManager.empty]
  · rw [hcm] at hcount
    simp only [Option.getD_some] at hcount
    simp only [hcm]
    by_cases hempty : (cm.disconnect ws).active_connections.isEmpty = true
    · rw [if_pos hempty, mapGet_mapDel_self_of_nodup _ _ hnodupU]
      simp [ConnectionManager.empty]
    · rw [if_neg hempty, mapGet_mapSet_self]
      simpa using not_mem_disconnect_self_of_count_le_one cm ws hcount

/-- C6 (witness).  Connection 1 of user alice, subscribed to job1, is
disconnected: the three subscription registries are untouched and the
connection is gone from the user channel and the connection-user map. -/
theorem c6_disconnect_scope_witness :
    (M6.disconnect_user 1).job_connections = M6.job_connections ∧
    (M6.disconnect_user 1).room_connections = M6.room_connections ∧
    (M6.disconnect_user 1).chat_connections = M6.chat_connections ∧
    mapGet (M6.disconnect_user 1).connection_users 1 = Option.none ∧
    (1 : WS) ∉ ((mapGet (M6.disconnect_user 1).user_connections "alice").getD
        ConnectionManager.empty).active_connections :=
  c6_disconnect_scope M6 1 "alice" (by decide) (by decide) (by decide) (by decide)

theorem send_to_user_job_connections (env : SendEnv) (M : WebSocketManager)
    (uid : String) (d : PyVal) :
    ((M.send_to_user env uid d).1).job_connections = M.job_connections := by
  rcases hcm : mapGet M.user_connections uid with _ | cm <;>
    simp [WebSocketManager.send_to_user, hcm]

/-- C7 (counterexample).  The claim states the pushed message carries exactly
the shape type processing_update, jobId, status, stage, progress, message,
timestamp - including the stage field.  The message actually built by
send_processing_update has no stage key at all. -/
theorem c7_shape_counterexample :
    (M7.send_processing_update envAllOk "T" "u" "j" "processing" (1/2)
        (Option.some "hi")).2 =
      [(1, processingUpdateMsg "T" "j" "processing" (1/2) (Option.some "hi")),
       (2, jobUpdateMsg "T" "j" (PyVal.dict [("status", .str "processing"),
          ("progress", .num (1/2)), ("message", optStr (Option.some "hi"))]))] ∧
    pyDictGet (processingUpdateMsg "T" "j" "processing" (1/2) (Option.some "hi"))
      "stage" = Option.none ∧
    pyDictGet (processingUpdateMsg "T" "j" "processing" (1/2) (Option.some "hi"))
      "type" = Option.some (PyVal.str "processing_update") :=
  ⟨rfl, rfl, rfl⟩

/-- C7 (amended).  Every progress event is indeed delivered by two
independent fan-outs - every live connection of the owning user's channel
receives the processing_update message, and every live subscriber of the job
receives a second message - but the processing_update message has the shape
type processing_update, jobId, status, progress, message, timestamp with no
stage field, and the job-side fan-out does not use that shape either: it
wraps status, progress and message inside a job_update envelope. -/
theorem c7_two_fanouts_no_stage (env : SendEnv) (now : String)
    (M : WebSocketManager) (uid jid status : String) (pr : ℚ)
    (msg : Option String) (cmu cmj : ConnectionManager) (c d : WS)
    (hu : mapGet M.user_connections uid = Option.some cmu)
    (hj : mapGet M.job_connections jid = Option.some cmj)
    (hc : c ∈ cmu.active_connections) (hcok : env c = SendOutcome.ok)
    (hd : d ∈ cmj.active_connections) (hdok : env d = SendOutcome.ok) :
    (c, processingUpdateMsg now jid status pr msg) ∈
      (M.send_processing_update env now uid jid status pr msg).2 ∧
    (d, jobUpdateMsg now jid (PyVal.dict [("status", .str status),
        ("progress", .num pr), ("message", optStr msg)])) ∈
      (M.send_processing_update env now uid jid status pr msg).2 ∧
    pyDictGet (processingUpdateMsg now jid status pr msg) "stage" =
      Option.none := by
  refine ⟨?_, ?_, rfl⟩
  · simp only [WebSocketManager.send_processing_update]
    apply List.mem_append_left
    simp only [WebSocketManager.send_to_user, hu]
    exact List.mem_map_of_mem _
      (mem_broadcastLoop_fst env c cmu.active_connections hc hcok)
  · simp only [WebSocketManager.send_processing_update]
    apply List.mem_append_right
    have hjc : mapGet (((M.send_to_user env uid (processingUpdateMsg now jid
        status pr msg)).1)).job_connections jid = Option.some cmj := by
      rw [send_to_user_job_connections]; exact hj
    simp only [WebSocketManager.send_job_update, hjc]
    exact List.mem_map_of_mem _
      (mem_broadcastLoop_fst env d cmj.active_connections hd hdok)

/-- C7 (witness).  User u with connection 1 and job j with subscriber 2: the
update reaches both through their respective fan-outs, and the user-side
message has no stage key. -/
theorem c7_two_fanouts_no_stage_witness :
    ((1 : WS), processingUpdateMsg "T" "j" "processing" (1/2)
        (Option.some "hi")) ∈
      (M7.send_processing_update envAllOk "T" "u" "j" "processing" (1/2)
        (Option.some "hi")).2 ∧
    ((2 : WS), jobUpdateMsg "T" "j" (PyVal.dict
        [("status", .str "processing"), ("progress", .num (1/2)),
         ("message", optStr (Option.some "hi"))])) ∈
      (M7.send_processing_update envAllOk "T" "u" "j" "processing" (1/2)
        (Option.some "hi")).2 ∧
    pyDictGet (processingUpdateMsg "T" "j" "processing" (1/2)
        (Option.some "hi")) "stage" = Option.none :=
  c7_two_fanouts_no_stage envAllOk "T" M7 "u" "j" "processing" (1/2)
    (Option.some "hi") ⟨[1], []⟩ ⟨[2], []⟩ 1 2 rfl rfl (by decide) rfl
    (by decide) rfl

theorem count_broadcastLoop_fst (env : SendEnv) (ws : WS)
    (h : env ws = SendOutcome.ok) :
    ∀ l : List WS, (broadcastLoop env l).1.count ws = l.count ws := by
  intro l
  induction l with
  | nil => rfl
  | cons a rest ih =>
      by_cases ha : a = ws
      · subst ha
        simp [broadcastLoop, h, ih]
      · cases henv : env a <;>
          simp [broadcastLoop, henv, List.count_cons, ha, ih]

/-- C8 (counterexample).  The claim states register is idempotent per
(connection, target) pair, so a second registration leaves the subscriber set
unchanged and a publish delivers exactly once.  Subscribing connection 7 to
job j twice makes the underlying connection list hold 7 twice, and the next
job update is delivered to connection 7 twice. -/
theorem c8_register_counterexample :
    ((mapGet M8.job_connections "j").getD
        ConnectionManager.empty).active_connections = [7, 7] ∧
    (WebSocketManager.send_job_update envAllOk "T" M8 "j" (PyVal.str "e")).2 =
      [(7, jobUpdateMsg "T" "j" (PyVal.str "e")),
       (7, jobUpdateMsg "T" "j" (PyVal.str "e"))] :=
  ⟨rfl, rfl⟩

/-- C8 (amended).  Registration appends the connection to the target's
connection list unconditionally, with no membership check: registering the
same connection twice adds two entries, and a broadcast whose send succeeds
delivers the event once per entry - twice after a double registration. -/
theorem c8_register_appends (m : ConnectionManager) (ws : WS)
    (meta1 meta2 : Option PyVal) (env : SendEnv)
    (h : env ws = SendOutcome.ok) :
    ((m.connect ws meta1).connect ws meta2).active_connections =
      m.active_connections ++ [ws, ws] ∧
    (ConnectionManager.broadcast env
        ((m.connect ws meta1).connect ws meta2)).1.count ws =
      m.active_connections.count ws + 2 := by
  constructor
  · simp [ConnectionManager.connect]
  · show (broadcastLoop env
      ((m.connect ws meta1).connect ws meta2).active_connections).1.count ws = _
    rw [count_broadcastLoop_fst env ws h]
    simp [ConnectionManager.connect, List.count_append]

/-- C8 (witness).  Registering connection 7 twice on an empty manager yields
the two-entry list and a double delivery count. -/
theorem c8_register_appends_witness :
    ((ConnectionManager.empty.connect 7 Option.none).connect 7
        Option.none).active_connections =
      ConnectionManager.empty.active_connections ++ [7, 7] ∧
    (ConnectionManager.broadcast envAllOk
        ((ConnectionManager.empty.connect 7 Option.none).connect 7
          Option.none)).1.count 7 =
      ConnectionManager.empty.active_connections.count 7 + 2 :=
  c8_register_appends ConnectionManager.empty 7 Option.none Option.none
    envAllOk rfl

theorem runSteps_get_ne (k : String) :
    ∀ (steps : List (Bool × String × Except String PyVal)) (r : Results),
      (∀ s ∈ steps, s.2.1 ≠ k) →
      mapGet (runSteps r steps).1 k = mapGet r k := by
  intro steps
  induction steps with
  | nil => intro r _; rfl
  | cons s rest ih =>
      obtain ⟨gate, key, act⟩ := s
      intro r hk
      have hkey : key ≠ k := hk (gate, key, act) (List.mem_cons_self _ _)
      have hrest : ∀ s ∈ rest, s.2.1 ≠ k :=
        fun s hs => hk s (List.mem_cons_of_mem _ hs)
      cases gate with
      | false => simpa [runSteps] using ih r hrest
      | true =>
          cases act with
          | error e => rfl
          | ok v =>
              simp only [runSteps, if_true]
              rw [ih (mapSet r key v) hrest, mapGet_mapSet_ne _ _ _ _ (Ne.symm hkey)]

theorem processTextBody_get_ne (S : TextSteps) (text : String)
    (opts : ProcessOptions) (r : Results) (k : String)
    (hk : k ∉ ["cleaned_text", "cleaned_length", "sentence_count",
      "word_count", "unique_words", "avg_sentence_length", "readability",
      "entities", "keywords", "classification", "summary"]) :
    mapGet (processTextBody S text opts r).1 k = mapGet r k := by
  simp only [List.mem_cons, List.not_mem_nil, or_false, not_or] at hk
  obtain ⟨h1, h2, h3, h4, h5, h6, h7, h8, h9, h10, h11⟩ := hk
  unfold processTextBody
  split
  · rfl
  · split
    · rw [mapGet_mapSet_ne _ _ _ _ h2, mapGet_mapSet_ne _ _ _ _ h1]
    · split
      · rw [mapGet_mapSet_ne _ _ _ _ h2, mapGet_mapSet_ne _ _ _ _ h1]
      · rw [runSteps_get_ne k _ _ ?hsteps]
        · rw [mapGet_mapSet_ne _ _ _ _ h6, mapGet_mapSet_ne _ _ _ _ h5,
            mapGet_mapSet_ne _ _ _ _ h4, mapGet_mapSet_ne _ _ _ _ h3,
            mapGet_mapSet_ne _ _ _ _ h2, mapGet_mapSet_ne _ _ _ _ h1]
        case hsteps =>
          intro s hs
          simp only [List.mem_cons, List.not_mem_nil, or_false] at hs
          rcases hs with rfl | rfl | rfl | rfl | rfl
          · exact Ne.symm h7
          · exact Ne.symm h8
          · exact Ne.symm h9
          · exact Ne.symm h10
          · exact Ne.symm h11

/-- C10 (confirmed).  process_text is total at its interface: for every
input text, every option set and every behaviour of the internal analysis
steps the function returns a result dict (the embedding is a total
function - the except-Exception envelope catches any step's exception); the
dict always carries a boolean success key, which is True exactly when no
step raised; and when a step raises, success is False and the error key
holds the raised message, while no error key is present on success. -/
theorem c10_process_text_total (S : TextSteps) (now text : String)
    (opts : ProcessOptions) :
    mapGet (processText S now text opts) "success" =
      Option.some (PyVal.bool
        (processTextBody S text opts (initResults now text)).2.isNone) ∧
    mapGet (processText S now text opts) "error" =
      Option.map PyVal.str
        (processTextBody S text opts (initResults now text)).2 := by
  unfold processText
  cases hb : processTextBody S text opts (initResults now text) with
  | mk r err =>
      cases err with
      | none =>
          constructor
          · simpa using mapGet_mapSet_self r "success" (PyVal.bool true)
          · rw [mapGet_mapSet_ne _ _ _ _ (by decide)]
            have h := processTextBody_get_ne S text opts (initResults now text)
              "error" (by decide)
            rw [hb] at h
            simpa using h
      | some e =>
          constructor
          · rw [mapGet_mapSet_ne _ _ _ _ (by decide), mapGet_mapSet_self]
            simp
          · simpa using mapGet_mapSet_self _ "error" (PyVal.str e)

/-- C9 (counterexample).  The claim states that for a document with empty
extracted text the result bundle records a lowQualityWarning flag set to
true.  Running the pipeline on the empty document succeeds (success True,
word_count 0), but the result holds no lowQualityWarning key at all - no
such flag exists anywhere in the code. -/
theorem c9_low_quality_counterexample :
    mapGet (processText S9 "T0" "" {}) "success" =
      Option.some (PyVal.bool true) ∧
    mapGet (processText S9 "T0" "" {}) "lowQualityWarning" = Option.none ∧
    mapGet (processText S9 "T0" "" {}) "word_count" =
      Option.some (PyVal.num 0) :=
  ⟨rfl, rfl, rfl⟩

/-- C9 (amended).  Empty extracted text is indeed not an error: the pipeline
returns success on the empty document - but no lowQualityWarning flag is
recorded: no execution of process_text, whatever the step behaviours, input
or options, ever stores such a key. -/
theorem c9_empty_text_no_warning (S : TextSteps) (now text : String)
    (opts : ProcessOptions) :
    mapGet (processText S now text opts) "lowQualityWarning" = Option.none ∧
    mapGet (processText S9 now "" {}) "success" =
      Option.some (PyVal.bool true) := by
  refine ⟨?_, rfl⟩
  unfold processText
  cases hb : processTextBody S text opts (initResults now text) with
  | mk r err =>
      have hr : mapGet r "lowQualityWarning" = Option.none := by
        have h := processTextBody_get_ne S text opts (initResults now text)
          "lowQualityWarning" (by decide)
        rw [hb] at h
        simpa using h
      cases err with
      | none =>
          rw [mapGet_mapSet_ne _ _ _ _ (by decide)]
          exact hr
      | some e =>
          rw [mapGet_mapSet_ne _ _ _ _ (by decide),
            mapGet_mapSet_ne _ _ _ _ (by decide)]
          exact hr

end TextToDataset
